import Mathlib

/-!
# Verification of the Traffic Jam Whopper system

A shallow embedding of `akl_bk_traffic_whopper.py`: the order entity and its
JSON-record serialization, the order repository (in-memory list plus backing
file), the order manager (create / cancel), the traffic-jam detector, and the
`TrafficJamWhopper` coordinator.  Python's mutable object state is passed
explicitly; the backing file's contents are modelled as the list of serialized
records it holds; text is modelled as `String`, except the ISO-8601 timestamp
text, modelled as its list of character codes (`List Nat`) so that the
rendering and parsing arithmetic is directly provable.  The random id and
timestamp drawn inside `Order.__init__`, and the random distance/duration
produced by the mock maps client, appear as explicit parameters.
-/

namespace TrafficWhopper

/-- Model of `datetime.datetime` restricted to the fields that
`isoformat` / `fromisoformat` exchange: a calendar date plus a time of day
with microsecond precision. -/
structure DateTime where
  year : Nat
  month : Nat
  day : Nat
  hour : Nat
  minute : Nat
  second : Nat
  microsecond : Nat
deriving DecidableEq, Repr

/-- Gregorian leap-year rule, as used by `datetime` for month lengths. -/
def isLeapYear (y : Nat) : Bool :=
  y % 4 = 0 && (y % 100 != 0 || y % 400 = 0)

/-- Number of days in a month, as validated by `datetime`. -/
def daysInMonth (y m : Nat) : Nat :=
  if m = 2 then (if isLeapYear y then 29 else 28)
  else if m = 4 || m = 6 || m = 9 || m = 11 then 30
  else 31

/-- The ranges `datetime.datetime` accepts for its fields
(`MINYEAR = 1`, `MAXYEAR = 9999`). -/
def DateTime.Valid (dt : DateTime) : Prop :=
  1 ≤ dt.year ∧ dt.year ≤ 9999 ∧
  1 ≤ dt.month ∧ dt.month ≤ 12 ∧
  1 ≤ dt.day ∧ dt.day ≤ daysInMonth dt.year dt.month ∧
  dt.hour ≤ 23 ∧ dt.minute ≤ 59 ∧ dt.second ≤ 59 ∧ dt.microsecond ≤ 999999

instance (dt : DateTime) : Decidable dt.Valid := by
  unfold DateTime.Valid; infer_instance

/-- Two decimal digits, zero-padded, as character codes. -/
def pad2 (n : Nat) : List Nat :=
  [48 + n / 10 % 10, 48 + n % 10]

/-- Four decimal digits, zero-padded, as character codes. -/
def pad4 (n : Nat) : List Nat :=
  [48 + n / 1000 % 10, 48 + n / 100 % 10, 48 + n / 10 % 10, 48 + n % 10]

/-- Six decimal digits, zero-padded, as character codes. -/
def pad6 (n : Nat) : List Nat :=
  [48 + n / 100000 % 10, 48 + n / 10000 % 10, 48 + n / 1000 % 10,
   48 + n / 100 % 10, 48 + n / 10 % 10, 48 + n % 10]

/-- Model of `datetime.isoformat()`: `YYYY-MM-DDTHH:MM:SS`, with a
`.ffffff` microsecond part appended exactly when the microsecond is
nonzero, as character codes (45 `-`, 84 `T`, 58 `:`, 46 `.`). -/
def DateTime.isoformat (dt : DateTime) : List Nat :=
  pad4 dt.year ++ [45] ++ pad2 dt.month ++ [45] ++ pad2 dt.day ++ [84] ++
  pad2 dt.hour ++ [58] ++ pad2 dt.minute ++ [58] ++ pad2 dt.second ++
  (if dt.microsecond = 0 then [] else 46 :: pad6 dt.microsecond)

/-- Value of a decimal digit character code, `none` when not a digit. -/
def digitVal (c : Nat) : Option Nat :=
  if 48 ≤ c ∧ c ≤ 57 then some (c - 48) else none

/-- Reads a two-digit zero-padded number. -/
def read2 (a b : Nat) : Option Nat := do
  let x ← digitVal a
  let y ← digitVal b
  pure (10 * x + y)

/-- Reads a four-digit zero-padded number. -/
def read4 (a b c d : Nat) : Option Nat := do
  let x ← read2 a b
  let y ← read2 c d
  pure (100 * x + y)

/-- Reads a six-digit zero-padded number. -/
def read6 (a b c d e f : Nat) : Option Nat := do
  let x ← read2 a b
  let y ← read2 c d
  let z ← read2 e f
  pure (10000 * x + 100 * y + z)

/-- Range validation performed by the `datetime` constructor: out-of-range
fields raise, modelled as `none`. -/
def mkDateTime (y mo d h mi s us : Nat) : Option DateTime :=
  if 1 ≤ y ∧ y ≤ 9999 ∧ 1 ≤ mo ∧ mo ≤ 12 ∧ 1 ≤ d ∧ d ≤ daysInMonth y mo ∧
     h ≤ 23 ∧ mi ≤ 59 ∧ s ≤ 59 ∧ us ≤ 999999 then
    some ⟨y, mo, d, h, mi, s, us⟩
  else none

/-- Model of `datetime.fromisoformat` on the canonical shapes `isoformat`
emits: `YYYY-MM-DDTHH:MM:SS` with an optional `.ffffff` tail; anything
else is a parse failure (`ValueError`), modelled as `none`. -/
def fromisoformat : List Nat → Option DateTime
  | [y1, y2, y3, y4, 45, m1, m2, 45, d1, d2, 84,
     h1, h2, 58, n1, n2, 58, s1, s2] => do
    let y ← read4 y1 y2 y3 y4
    let mo ← read2 m1 m2
    let d ← read2 d1 d2
    let h ← read2 h1 h2
    let mi ← read2 n1 n2
    let s ← read2 s1 s2
    mkDateTime y mo d h mi s 0
  | [y1, y2, y3, y4, 45, m1, m2, 45, d1, d2, 84,
     h1, h2, 58, n1, n2, 58, s1, s2, 46, u1, u2, u3, u4, u5, u6] => do
    let y ← read4 y1 y2 y3 y4
    let mo ← read2 m1 m2
    let d ← read2 d1 d2
    let h ← read2 h1 h2
    let mi ← read2 n1 n2
    let s ← read2 s1 s2
    let us ← read6 u1 u2 u3 u4 u5 u6
    mkDateTime y mo d h mi s us
  | _ => none

/-- Model of the `Order` class: fields set by `Order.__init__` and mutated by
`Order.cancel` / `load_orders`.  The id drawn by `random.randint(1000, 9999)`
and the `datetime.now()` timestamp become explicit parameters where an order
is constructed.  `status` is a plain string in the source (`"Pending"` /
`"Removed"`). -/
structure Order where
  id : Int
  customer_name : String
  location : String
  timestamp : DateTime
  status : String
deriving DecidableEq, Repr

/-- A serialized order record, one element of the JSON array held by the
backing file (`Order.to_dict`); the timestamp is its ISO-8601 text. -/
structure OrderRec where
  id : Int
  customer_name : String
  location : String
  timestamp : List Nat
  status : String
deriving DecidableEq, Repr

/-- Model of `Order.to_dict`: the serialized record written to the file. -/
def Order.to_dict (o : Order) : OrderRec :=
  { id := o.id
    customer_name := o.customer_name
    location := o.location
    timestamp := o.timestamp.isoformat
    status := o.status }

/-- Model of `Order.__init__`: a fresh order is always `"Pending"`; the
random id and current time are passed in explicitly. -/
def Order.mk_new (customer_name location : String) (rid : Int)
    (now : DateTime) : Order :=
  { id := rid
    customer_name := customer_name
    location := location
    timestamp := now
    status := "Pending" }

/-- Model of `Order.cancel`: sets the status to `"Removed"`. -/
def Order.cancel (o : Order) : Order :=
  { o with status := "Removed" }

/-- State of an `OrderRepository`: the in-memory `self.orders` list and the
contents of the backing `orders.json` file, modelled as the list of records
the JSON array holds. -/
structure RepoState where
  orders : List Order
  file : List OrderRec
deriving DecidableEq, Repr

/-- Model of `OrderRepository.save_orders`: rewrites the whole file with the
serialized form of every in-memory order. -/
def OrderRepository.save_orders (st : RepoState) : RepoState :=
  { st with file := st.orders.map Order.to_dict }

/-- Model of `OrderRepository.save_order`: appends to the in-memory list,
then rewrites the file via `save_orders`. -/
def OrderRepository.save_order (st : RepoState) (o : Order) : RepoState :=
  OrderRepository.save_orders { st with orders := st.orders ++ [o] }

/-- Model of `OrderRepository.get_orders`: the in-memory list. -/
def OrderRepository.get_orders (st : RepoState) : List Order :=
  st.orders

/-- Reconstruction of one order inside `load_orders`: a fresh `Order` is
built from the record's name and location, then its `id`, `timestamp`
(parsed with `fromisoformat`) and `status` are overwritten from the record;
a timestamp parse failure raises, modelled as `none`. -/
def recToOrder (r : OrderRec) : Option Order :=
  match fromisoformat r.timestamp with
  | none => none
  | some ts =>
    some { id := r.id
           customer_name := r.customer_name
           location := r.location
           timestamp := ts
           status := r.status }

/-- Model of `OrderRepository.load_orders` on a present file: reconstructs
each record in order; any failure aborts the whole load. -/
def OrderRepository.load_orders : List OrderRec → Option (List Order)
  | [] => some []
  | r :: rs =>
    match recToOrder r with
    | none => none
    | some o =>
      match OrderRepository.load_orders rs with
      | none => none
      | some os => some (o :: os)

/-- The scan inside `OrderRepository.update_order`: replaces the first
order whose `id` matches, `none` when no order matches. -/
def replaceFirst (o : Order) : List Order → Option (List Order)
  | [] => none
  | x :: xs =>
    if x.id = o.id then some (o :: xs)
    else (replaceFirst o xs).map (fun ys => x :: ys)

/-- Model of `OrderRepository.update_order`: replaces the first entry with a
matching id and rewrites the file; when no entry matches, falls off the loop
and returns with no change. -/
def OrderRepository.update_order (st : RepoState) (o : Order) : RepoState :=
  match replaceFirst o st.orders with
  | none => st
  | some orders => OrderRepository.save_orders { st with orders := orders }

/-- Model of `OrderManager.create_order`: constructs a fresh order and
persists it via `save_order`, returning the order and the new state. -/
def OrderManager.create_order (customer_name location : String) (rid : Int)
    (now : DateTime) (st : RepoState) : Order × RepoState :=
  let o := Order.mk_new customer_name location rid now
  (o, OrderRepository.save_order st o)

/-- The scan inside `OrderManager.cancel_order`: first order whose `id`
matches. -/
def firstMatch (oid : Int) : List Order → Option Order
  | [] => none
  | x :: xs => if x.id = oid then some x else firstMatch oid xs

/-- Model of `OrderManager.cancel_order`: scans for the first order with the
given id; if it is already `"Removed"` it warns and returns `None`; otherwise
it cancels the order in place, persists via `update_order`, and returns the
updated order; with no match it warns and returns `None`. -/
def OrderManager.cancel_order (st : RepoState) (oid : Int) :
    Option Order × RepoState :=
  match firstMatch oid st.orders with
  | none => (none, st)
  | some o =>
    if o.status = "Removed" then (none, st)
    else
      let o' := Order.cancel o
      (some o', OrderRepository.update_order st o')

/-- A candidate route from the mock maps client: only its name reaches the
jam list; its geometry only feeds the directions request, which is modelled
by the outcome function below. -/
structure Route where
  name : String
deriving DecidableEq, Repr

/-- One leg of a directions result: simulated distance (meters) and
duration-in-traffic (seconds), modelled as rationals. -/
structure Leg where
  distance : ℚ
  duration : ℚ
deriving DecidableEq, Repr

/-- The outcome of requesting and reading a route's directions result: an
exception anywhere in the attempt (`.error`), or the list of results, each
with its list of legs. -/
abbrev DirectionsOutcome := Except String (List (List Leg))

/-- Model of `TrafficJamDetector.check_traffic_on_route`.  The whole body is
wrapped in `try/except` returning `False`: an exception obtaining the
directions result is `.error`; an empty result list fails the truthiness
check; an empty legs list raises `IndexError`, caught; a zero duration makes
the average-speed division raise `ZeroDivisionError`, caught.  Otherwise the
route is jammed exactly when
`(distance / 1000) / (duration / 3600) < 10`. -/
def TrafficJamDetector.check_traffic_on_route
    (directions : Route → DirectionsOutcome) (route : Route) : Bool :=
  match directions route with
  | .error _ => false
  | .ok [] => false
  | .ok (legs :: _) =>
    match legs with
    | [] => false
    | leg :: _ =>
      if leg.duration / 3600 = 0 then false
      else decide ((leg.distance / 1000) / (leg.duration / 3600) < 10)

/-- Model of `TrafficJamDetector.find_traffic_jams`: collects the names of
the candidate routes classified as jammed, in order. -/
def TrafficJamDetector.find_traffic_jams
    (directions : Route → DirectionsOutcome) (routes : List Route) :
    List String :=
  (routes.filter (TrafficJamDetector.check_traffic_on_route directions)).map
    Route.name

/-- Model of `TrafficJamWhopper.trigger_order_availability`: the
notification message logged for one jam location. -/
def TrafficJamWhopper.trigger_order_availability (location : String) :
    String :=
  "Traffic Jam Whopper service is now available near " ++ location

/-- State of a `TrafficJamWhopper`: the held jam-location list, the order
store underneath the order manager, and the log of notification messages
emitted by `trigger_order_availability`. -/
structure WhopperState where
  traffic_jam_locations : List String
  repo : RepoState
  notifications : List String
deriving DecidableEq, Repr

/-- Model of `TrafficJamWhopper.check_for_traffic_jams`: runs the detector,
overwrites the held jam-location list with the result, and triggers one
notification per jam location, in order. -/
def TrafficJamWhopper.check_for_traffic_jams
    (directions : Route → DirectionsOutcome) (routes : List Route)
    (st : WhopperState) : WhopperState :=
  let jams := TrafficJamDetector.find_traffic_jams directions routes
  { st with
    traffic_jam_locations := jams
    notifications :=
      st.notifications ++ jams.map TrafficJamWhopper.trigger_order_availability }

/-- Model of `TrafficJamWhopper.create_order`: when the location is not a
member of the held jam-location list, warns and returns `None` with no state
change; otherwise delegates to `OrderManager.create_order`. -/
def TrafficJamWhopper.create_order (customer_name location : String)
    (rid : Int) (now : DateTime) (st : WhopperState) :
    Option Order × WhopperState :=
  if location ∉ st.traffic_jam_locations then (none, st)
  else
    let (o, repo) :=
      OrderManager.create_order customer_name location rid now st.repo
    (some o, { st with repo := repo })

/-! Concrete fixtures used to instantiate the theorems below. -/

/-- A sample valid timestamp: 2024-01-02 03:04:05.000006. -/
def dt0 : DateTime := ⟨2024, 1, 2, 3, 4, 5, 6⟩

/-- A sample pending order. -/
def o0 : Order := ⟨1234, "Alice", "Queen Street", dt0, "Pending"⟩

/-- A second sample order with a fresh id. -/
def o1 : Order := ⟨5678, "Carol", "Dominion Road", dt0, "Pending"⟩

/-- An order sharing `o0`'s id but with a different customer. -/
def o0b : Order := ⟨1234, "Alicia", "Queen Street", dt0, "Pending"⟩

/-- A removed order sharing `o0`'s id. -/
def oR : Order := ⟨1234, "Dave", "Queen Street", dt0, "Removed"⟩

/-- A pending duplicate of id 1234, sitting after `oR` in a store. -/
def dupP : Order := ⟨1234, "Erin", "Queen Street", dt0, "Pending"⟩

/-- A pending order with id 1111. -/
def oP : Order := ⟨1111, "Frank", "Ponsonby Road", dt0, "Pending"⟩

/-- A removed order with id 2222. -/
def oR2 : Order := ⟨2222, "Grace", "Hobson Street", dt0, "Removed"⟩

/-- An empty repository. -/
def repo0 : RepoState := ⟨[], []⟩

/-- A repository holding exactly `o0`, with its file in sync. -/
def st1 : RepoState := ⟨[o0], [o0.to_dict]⟩

/-- A repository holding `oP` and `oR2`, with its file in sync. -/
def st2 : RepoState := ⟨[oP, oR2], [oP.to_dict, oR2.to_dict]⟩

/-- Coordinator state holding one jam location over an empty store. -/
def wst0 : WhopperState := ⟨["Queen Street"], repo0, []⟩

/-- Coordinator state whose store already holds an order with id 1234. -/
def wdup : WhopperState := ⟨["Queen Street"], ⟨[o0], [o0.to_dict]⟩, []⟩

lemma daysInMonth_le (y m : Nat) : daysInMonth y m ≤ 31 := by
  unfold daysInMonth
  split
  · split <;> omega
  · split <;> omega

lemma digitVal_digit {x : Nat} (hx : x < 10) : digitVal (48 + x) = some x := by
  unfold digitVal
  rw [if_pos ⟨by omega, by omega⟩]
  congr 1
  omega

lemma read2_pad2 {n : Nat} (hn : n < 100) :
    read2 (48 + n / 10 % 10) (48 + n % 10) = some n := by
  unfold read2
  rw [digitVal_digit (Nat.mod_lt _ (by norm_num)),
      digitVal_digit (Nat.mod_lt _ (by norm_num))]
  simp only [Option.bind_eq_bind, Option.some_bind, Option.pure_def]
  congr 1
  omega

lemma read4_pad4 {n : Nat} (hn : n < 10000) :
    read4 (48 + n / 1000 % 10) (48 + n / 100 % 10)
          (48 + n / 10 % 10) (48 + n % 10) = some (n) := by
  unfold read4
  have h1 : (48 + n / 1000 % 10) = 48 + (n / 100) / 10 % 10 := by
    rw [Nat.div_div_eq_div_mul]
  have h2 : (48 + n / 100 % 10) = 48 + (n / 100) % 10 := rfl
  rw [h1, h2, read2_pad2 (by omega)]
  have h3 : (48 + n / 10 % 10) = 48 + (n % 100) / 10 % 10 := by
    congr 1
    omega
  have h4 : (48 + n % 10) = 48 + (n % 100) % 10 := by
    congr 1
    omega
  rw [h3, h4, read2_pad2 (Nat.mod_lt _ (by norm_num))]
  simp only [Option.bind_eq_bind, Option.some_bind, Option.pure_def]
  congr 1
  omega

lemma read6_pad6 {n : Nat} (hn : n < 1000000) :
    read6 (48 + n / 100000 % 10) (48 + n / 10000 % 10) (48 + n / 1000 % 10)
          (48 + n / 100 % 10) (48 + n / 10 % 10) (48 + n % 10) = some n := by
  unfold read6
  have h1 : (48 + n / 100000 % 10) = 48 + (n / 10000) / 10 % 10 := by
    rw [Nat.div_div_eq_div_mul]
  have h2 : (48 + n / 10000 % 10) = 48 + (n / 10000) % 10 := rfl
  rw [h1, h2, read2_pad2 (by omega)]
  have h3 : (48 + n / 1000 % 10) = 48 + (n / 100 % 100) / 10 % 10 := by
    congr 1
    omega
  have h4 : (48 + n / 100 % 10) = 48 + (n / 100 % 100) % 10 := by
    congr 1
    omega
  rw [h3, h4, read2_pad2 (Nat.mod_lt _ (by norm_num))]
  have h5 : (48 + n / 10 % 10) = 48 + (n % 100) / 10 % 10 := by
    congr 1
    omega
  have h6 : (48 + n % 10) = 48 + (n % 100) % 10 := by
    congr 1
    omega
  rw [h5, h6, read2_pad2 (Nat.mod_lt _ (by norm_num))]
  simp only [Option.bind_eq_bind, Option.some_bind, Option.pure_def]
  congr 1
  omega

/-- Rendering a valid datetime and parsing it back reproduces it exactly. -/
lemma fromisoformat_isoformat {dt : DateTime} (hv : dt.Valid) :
    fromisoformat dt.isoformat = some dt := by
  obtain ⟨y, mo, d, h, mi, s, us⟩ := dt
  obtain ⟨hy1, hy2, hm1, hm2, hd1, hd2, hh, hmi, hs, hus⟩ := hv
  simp only at hy1 hy2 hm1 hm2 hd1 hd2 hh hmi hs hus
  by_cases h0 : us = 0
  · subst h0
    show fromisoformat (pad4 y ++ [45] ++ pad2 mo ++ [45] ++ pad2 d ++ [84] ++
      pad2 h ++ [58] ++ pad2 mi ++ [58] ++ pad2 s ++ (if (0 : Nat) = 0 then [] else _)) = _
    rw [if_pos rfl]
    show fromisoformat [48 + y / 1000 % 10, 48 + y / 100 % 10, 48 + y / 10 % 10,
      48 + y % 10, 45, 48 + mo / 10 % 10, 48 + mo % 10, 45, 48 + d / 10 % 10,
      48 + d % 10, 84, 48 + h / 10 % 10, 48 + h % 10, 58, 48 + mi / 10 % 10,
      48 + mi % 10, 58, 48 + s / 10 % 10, 48 + s % 10] = _
    rw [fromisoformat]
    rw [read4_pad4 (by omega), read2_pad2 (by omega),
        read2_pad2 (by have := daysInMonth_le y mo; omega),
        read2_pad2 (by omega), read2_pad2 (by omega), read2_pad2 (by omega)]
    simp only [Option.bind_eq_bind, Option.some_bind]
    unfold mkDateTime
    rw [if_pos ⟨hy1, hy2, hm1, hm2, hd1, hd2, hh, hmi, hs, by omega⟩]
  · show fromisoformat (pad4 y ++ [45] ++ pad2 mo ++ [45] ++ pad2 d ++ [84] ++
      pad2 h ++ [58] ++ pad2 mi ++ [58] ++ pad2 s ++
      (if us = 0 then [] else 46 :: pad6 us)) = _
    rw [if_neg h0]
    show fromisoformat [48 + y / 1000 % 10, 48 + y / 100 % 10, 48 + y / 10 % 10,
      48 + y % 10, 45, 48 + mo / 10 % 10, 48 + mo % 10, 45, 48 + d / 10 % 10,
      48 + d % 10, 84, 48 + h / 10 % 10, 48 + h % 10, 58, 48 + mi / 10 % 10,
      48 + mi % 10, 58, 48 + s / 10 % 10, 48 + s % 10, 46, 48 + us / 100000 % 10,
      48 + us / 10000 % 10, 48 + us / 1000 % 10, 48 + us / 100 % 10,
      48 + us / 10 % 10, 48 + us % 10] = _
    rw [fromisoformat]
    rw [read4_pad4 (by omega), read2_pad2 (by omega),
        read2_pad2 (by have := daysInMonth_le y mo; omega),
        read2_pad2 (by omega), read2_pad2 (by omega), read2_pad2 (by omega),
        read6_pad6 (by omega)]
    simp only [Option.bind_eq_bind, Option.some_bind]
    unfold mkDateTime
    rw [if_pos ⟨hy1, hy2, hm1, hm2, hd1, hd2, hh, hmi, hs, hus⟩]

/-- Claim C1: for every customer name and location, if the location is not in
the coordinator's held jam-location list, `TrafficJamWhopper.create_order`
returns no order and leaves the whole state — jam list, in-memory orders and
backing file — unchanged; and only on an exact string match with a held jam
location does it delegate to the order service, appending the new order via
`save_order`. -/
theorem claim_C1_location_gate (customer location : String) (rid : Int)
    (now : DateTime) (st : WhopperState) :
    (location ∉ st.traffic_jam_locations →
      TrafficJamWhopper.create_order customer location rid now st =
        (none, st)) ∧
    (location ∈ st.traffic_jam_locations →
      TrafficJamWhopper.create_order customer location rid now st =
        (some (Order.mk_new customer location rid now),
         { st with repo := (OrderRepository.save_order st.repo
            (Order.mk_new customer location rid now)) })) := by
  constructor
  · intro h
    unfold TrafficJamWhopper.create_order
    rw [if_pos h]
  · intro h
    unfold TrafficJamWhopper.create_order
    rw [if_neg (not_not_intro h)]
    rfl

/-- Witness for C1 at a concrete jam set `["Queen Street"]`: a request at
"K Road" is rejected with no state change, and one at "Queen Street" is
delegated and persisted. -/
theorem claim_C1_location_gate_witness :
    TrafficJamWhopper.create_order "Bob" "K Road" 4321 dt0 wst0 =
      (none, wst0) ∧
    TrafficJamWhopper.create_order "Alice" "Queen Street" 4321 dt0 wst0 =
      (some (Order.mk_new "Alice" "Queen Street" 4321 dt0),
       { wst0 with repo := (OrderRepository.save_order wst0.repo
          (Order.mk_new "Alice" "Queen Street" 4321 dt0)) }) :=
  ⟨(claim_C1_location_gate "Bob" "K Road" 4321 dt0 wst0).1 (by decide),
   (claim_C1_location_gate "Alice" "Queen Street" 4321 dt0 wst0).2 (by decide)⟩

/-- Claim C3: `check_traffic_on_route` returns true iff the simulated
average speed `(distance / 1000) / (duration / 3600)` is strictly below
10 km/h; in particular at exactly 10 km/h it returns false. -/
theorem claim_C3_jam_threshold (route : Route) (d t : ℚ) (ht : 0 < t) :
    (TrafficJamDetector.check_traffic_on_route
        (fun _ => Except.ok [[⟨d, t⟩]]) route = true ↔
      (d / 1000) / (t / 3600) < 10) := by
  simp only [TrafficJamDetector.check_traffic_on_route]
  rw [if_neg (by positivity)]
  exact decide_eq_true_iff

/-- Witness for C3: a 1 m trip taking 3600 s (0.001 km/h) is jammed. -/
theorem claim_C3_jam_threshold_witness :
    TrafficJamDetector.check_traffic_on_route
      (fun _ => Except.ok [[⟨1, 3600⟩]]) ⟨"Queen Street"⟩ = true :=
  (claim_C3_jam_threshold ⟨"Queen Street"⟩ 1 3600 (by norm_num)).mpr
    (by norm_num)

/-- Claim C7: a failure obtaining or parsing one route's directions result is
absorbed locally — the failing route is classified as not jammed — and
`find_traffic_jams` processes the remaining routes exactly as if the failing
route were absent; being a total function into `List String`, it never
raises. -/
theorem claim_C7_route_failure_isolated
    (directions : Route → DirectionsOutcome) (r : Route) (e : String)
    (l1 l2 : List Route) (hf : directions r = Except.error e) :
    TrafficJamDetector.check_traffic_on_route directions r = false ∧
    TrafficJamDetector.find_traffic_jams directions (l1 ++ r :: l2) =
      TrafficJamDetector.find_traffic_jams directions l1 ++
        TrafficJamDetector.find_traffic_jams directions l2 := by
  have hc : TrafficJamDetector.check_traffic_on_route directions r = false := by
    unfold TrafficJamDetector.check_traffic_on_route
    rw [hf]
  refine ⟨hc, ?_⟩
  unfold TrafficJamDetector.find_traffic_jams
  rw [List.filter_append, List.filter_cons]
  simp [hc]

/-- Witness for C7: with every directions request failing, a three-route
scan classifies the middle route as not jammed and completes. -/
theorem claim_C7_route_failure_isolated_witness :
    TrafficJamDetector.check_traffic_on_route
      (fun _ => Except.error "boom") ⟨"Queen Street"⟩ = false ∧
    TrafficJamDetector.find_traffic_jams (fun _ => Except.error "boom")
        ([⟨"Hobson Street"⟩] ++ ⟨"Queen Street"⟩ :: [⟨"Nelson Street"⟩]) =
      TrafficJamDetector.find_traffic_jams (fun _ => Except.error "boom")
          [⟨"Hobson Street"⟩] ++
        TrafficJamDetector.find_traffic_jams (fun _ => Except.error "boom")
          [⟨"Nelson Street"⟩] :=
  claim_C7_route_failure_isolated (fun _ => Except.error "boom")
    ⟨"Queen Street"⟩ "boom" [⟨"Hobson Street"⟩] [⟨"Nelson Street"⟩] rfl

/-- Claim C9: every `check_for_traffic_jams` run replaces the held
jam-location list with exactly the detector's result for that run, triggers
one notification per new jam location (in order), and touches nothing
else (the order store is unchanged). -/
theorem claim_C9_jam_set_replaced (directions : Route → DirectionsOutcome)
    (routes : List Route) (st : WhopperState) :
    (TrafficJamWhopper.check_for_traffic_jams directions routes
        st).traffic_jam_locations =
      TrafficJamDetector.find_traffic_jams directions routes ∧
    (TrafficJamWhopper.check_for_traffic_jams directions routes
        st).notifications =
      st.notifications ++
        (TrafficJamDetector.find_traffic_jams directions routes).map
          TrafficJamWhopper.trigger_order_availability ∧
    (TrafficJamWhopper.check_for_traffic_jams directions routes st).repo =
      st.repo :=
  ⟨rfl, rfl, rfl⟩

/-- Claim C6: `save_orders` always rewrites the file with the serialization
of the entire in-memory collection, so after `save_order` the file reflects
the complete current collection unconditionally, and `update_order`
preserves that agreement. -/
theorem claim_C6_file_reflects_store (st : RepoState) (o onew : Order) :
    (OrderRepository.save_orders st).file =
      (OrderRepository.save_orders st).orders.map Order.to_dict ∧
    (OrderRepository.save_order st o).file =
      (OrderRepository.save_order st o).orders.map Order.to_dict ∧
    (st.file = st.orders.map Order.to_dict →
      (OrderRepository.update_order st onew).file =
        (OrderRepository.update_order st onew).orders.map Order.to_dict) := by
  refine ⟨rfl, rfl, ?_⟩
  intro hinv
  unfold OrderRepository.update_order
  cases replaceFirst onew st.orders with
  | none => exact hinv
  | some orders => rfl

/-- Witness for C6 at a concrete in-sync repository. -/
theorem claim_C6_file_reflects_store_witness :
    (OrderRepository.update_order st1 o1).file =
      (OrderRepository.update_order st1 o1).orders.map Order.to_dict :=
  (claim_C6_file_reflects_store st1 o1 o1).2.2 rfl

lemma replaceFirst_eq_none {o : Order} {l : List Order}
    (h : ∀ x ∈ l, x.id ≠ o.id) : replaceFirst o l = none := by
  induction l with
  | nil => rfl
  | cons x xs ih =>
    simp only [replaceFirst]
    rw [if_neg (h x (List.mem_cons_self x xs)),
        ih (fun y hy => h y (List.mem_cons_of_mem x hy))]
    rfl

lemma replaceFirst_append {o x : Order} {l1 l2 : List Order}
    (h1 : ∀ y ∈ l1, y.id ≠ o.id) (hx : x.id = o.id) :
    replaceFirst o (l1 ++ x :: l2) = some (l1 ++ o :: l2) := by
  induction l1 with
  | nil =>
    rw [List.nil_append]
    simp only [replaceFirst]
    rw [if_pos hx]
    rfl
  | cons z zs ih =>
    rw [List.cons_append]
    simp only [replaceFirst]
    rw [if_neg (h1 z (List.mem_cons_self z zs)),
        ih (fun y hy => h1 y (List.mem_cons_of_mem z hy))]
    rfl

lemma firstMatch_eq_none {oid : Int} {l : List Order}
    (h : ∀ x ∈ l, x.id ≠ oid) : firstMatch oid l = none := by
  induction l with
  | nil => rfl
  | cons x xs ih =>
    simp only [firstMatch]
    rw [if_neg (h x (List.mem_cons_self x xs))]
    exact ih (fun y hy => h y (List.mem_cons_of_mem x hy))

lemma firstMatch_append {oid : Int} {x : Order} {l1 l2 : List Order}
    (h1 : ∀ y ∈ l1, y.id ≠ oid) (hx : x.id = oid) :
    firstMatch oid (l1 ++ x :: l2) = some x := by
  induction l1 with
  | nil =>
    rw [List.nil_append]
    simp only [firstMatch]
    rw [if_pos hx]
  | cons z zs ih =>
    rw [List.cons_append]
    simp only [firstMatch]
    rw [if_neg (h1 z (List.mem_cons_self z zs))]
    exact ih (fun y hy => h1 y (List.mem_cons_of_mem z hy))

/-- Claim C8: when no stored order has the argument's id, `update_order` is a
silent no-op — the in-memory list and the backing file are both left exactly
as they were; and when a stored order does match, that (first) entry is
replaced and the file rewritten with the new collection. -/
theorem claim_C8_update_missing_id_noop (st : RepoState) (o : Order) :
    ((∀ x ∈ st.orders, x.id ≠ o.id) →
      OrderRepository.update_order st o = st) ∧
    (∀ l1 x l2, st.orders = l1 ++ x :: l2 → (∀ y ∈ l1, y.id ≠ o.id) →
      x.id = o.id →
      OrderRepository.update_order st o =
        ⟨l1 ++ o :: l2, (l1 ++ o :: l2).map Order.to_dict⟩) := by
  constructor
  · intro h
    unfold OrderRepository.update_order
    rw [replaceFirst_eq_none h]
  · intro l1 x l2 hse h1 hx
    unfold OrderRepository.update_order
    rw [hse, replaceFirst_append h1 hx]
    rfl

/-- Witness for C8: updating a one-order store with a fresh id changes
nothing; updating with the held id replaces the entry and the file. -/
theorem claim_C8_update_missing_id_noop_witness :
    OrderRepository.update_order st1 o1 = st1 ∧
    OrderRepository.update_order st1 o0b =
      ⟨[] ++ o0b :: [], ([] ++ o0b :: []).map Order.to_dict⟩ :=
  ⟨(claim_C8_update_missing_id_noop st1 o1).1 (by decide),
   (claim_C8_update_missing_id_noop st1 o0b).2 [] o0 [] rfl
     (by intro y hy; cases hy) rfl⟩

/-- Claim C10: with duplicate ids in the store, `cancel_order` decides from
the first matching order only — returning `None` when it is already
`"Removed"` even if a later duplicate is pending, or cancelling exactly
it — and `update_order` replaces only the first matching entry; in every
case the suffix after the first match, duplicates included, is untouched. -/
theorem claim_C10_first_match_semantics (l1 l2 : List Order) (o onew : Order)
    (fc : List OrderRec) (oid : Int)
    (h1 : ∀ y ∈ l1, y.id ≠ oid) (ho : o.id = oid) (hn : onew.id = oid) :
    (o.status = "Removed" →
      OrderManager.cancel_order ⟨l1 ++ o :: l2, fc⟩ oid =
        (none, ⟨l1 ++ o :: l2, fc⟩)) ∧
    (o.status = "Pending" →
      OrderManager.cancel_order ⟨l1 ++ o :: l2, fc⟩ oid =
        (some (Order.cancel o),
         ⟨l1 ++ Order.cancel o :: l2,
          (l1 ++ Order.cancel o :: l2).map Order.to_dict⟩)) ∧
    OrderRepository.update_order ⟨l1 ++ o :: l2, fc⟩ onew =
      ⟨l1 ++ onew :: l2, (l1 ++ onew :: l2).map Order.to_dict⟩ := by
  have hfm : firstMatch oid (l1 ++ o :: l2) = some o := firstMatch_append h1 ho
  have h1c : ∀ y ∈ l1, y.id ≠ (Order.cancel o).id := by
    intro y hy
    show y.id ≠ o.id
    rw [ho]
    exact h1 y hy
  have h1n : ∀ y ∈ l1, y.id ≠ onew.id := by
    intro y hy
    rw [hn]
    exact h1 y hy
  refine ⟨?_, ?_, ?_⟩
  · intro hs
    unfold OrderManager.cancel_order
    rw [show (⟨l1 ++ o :: l2, fc⟩ : RepoState).orders = l1 ++ o :: l2 from rfl,
        hfm]
    simp [hs]
  · intro hs
    unfold OrderManager.cancel_order
    rw [show (⟨l1 ++ o :: l2, fc⟩ : RepoState).orders = l1 ++ o :: l2 from rfl,
        hfm]
    have hne : ¬ o.status = "Removed" := by
      rw [hs]
      decide
    simp only [hne, if_false, if_neg hne]
    unfold OrderRepository.update_order
    rw [show (⟨l1 ++ o :: l2, fc⟩ : RepoState).orders = l1 ++ o :: l2 from rfl,
        replaceFirst_append h1c (show o.id = (Order.cancel o).id from rfl)]
    rfl
  · unfold OrderRepository.update_order
    rw [show (⟨l1 ++ o :: l2, fc⟩ : RepoState).orders = l1 ++ o :: l2 from rfl,
        replaceFirst_append h1n (ho.trans hn.symm)]
    rfl

/-- Witness for C10 on a store holding a removed order and, after it, a
pending duplicate of the same id 1234: cancelling 1234 reports already
cancelled and changes nothing, and an update with id 1234 replaces only the
first entry. -/
theorem claim_C10_first_match_semantics_witness :
    OrderManager.cancel_order ⟨[] ++ oR :: [dupP], []⟩ 1234 =
      (none, ⟨[] ++ oR :: [dupP], []⟩) ∧
    OrderRepository.update_order ⟨[] ++ oR :: [dupP], []⟩ o0b =
      ⟨[] ++ o0b :: [dupP], ([] ++ o0b :: [dupP]).map Order.to_dict⟩ :=
  ⟨(claim_C10_first_match_semantics [] [dupP] oR o0b [] 1234
      (by intro y hy; cases hy) rfl rfl).1 rfl,
   (claim_C10_first_match_semantics [] [dupP] oR o0b [] 1234
      (by intro y hy; cases hy) rfl rfl).2.2⟩

/-- Claim C4: on a store whose ids are pairwise distinct, `cancel_order`
returns nothing and leaves the state untouched when no order has the id or
when the matched order is already `"Removed"`; when the matched order is
`"Pending"` it returns that order with status `"Removed"`, persisting it via
`update_order`, after which it is in the store and the file is the
serialization of the new collection.  All cases return normally. -/
theorem claim_C4_cancel_order_cases (st : RepoState) (oid : Int)
    (hids : st.orders.Pairwise (fun a b => a.id ≠ b.id)) :
    ((∀ o ∈ st.orders, o.id ≠ oid) →
      OrderManager.cancel_order st oid = (none, st)) ∧
    (∀ o ∈ st.orders, o.id = oid → o.status = "Removed" →
      OrderManager.cancel_order st oid = (none, st)) ∧
    (∀ o ∈ st.orders, o.id = oid → o.status = "Pending" →
      OrderManager.cancel_order st oid =
        (some (Order.cancel o),
         OrderRepository.update_order st (Order.cancel o)) ∧
      Order.cancel o ∈
        (OrderRepository.update_order st (Order.cancel o)).orders ∧
      (OrderRepository.update_order st (Order.cancel o)).file =
        (OrderRepository.update_order st (Order.cancel o)).orders.map
          Order.to_dict) := by
  obtain ⟨orders, fc⟩ := st
  simp only at hids ⊢
  refine ⟨?_, ?_, ?_⟩
  · intro h
    unfold OrderManager.cancel_order
    rw [show (⟨orders, fc⟩ : RepoState).orders = orders from rfl,
        firstMatch_eq_none h]
  · intro o hmem ho hs
    obtain ⟨l1, l2, hse⟩ := List.append_of_mem hmem
    subst hse
    have h1 : ∀ y ∈ l1, y.id ≠ oid := by
      intro y hy
      have := (List.pairwise_append.mp hids).2.2 y hy o
        (List.mem_cons_self o l2)
      rw [← ho]
      exact this
    unfold OrderManager.cancel_order
    rw [show (⟨l1 ++ o :: l2, fc⟩ : RepoState).orders = l1 ++ o :: l2 from rfl,
        firstMatch_append h1 ho]
    simp [hs]
  · intro o hmem ho hs
    obtain ⟨l1, l2, hse⟩ := List.append_of_mem hmem
    subst hse
    have h1 : ∀ y ∈ l1, y.id ≠ oid := by
      intro y hy
      have := (List.pairwise_append.mp hids).2.2 y hy o
        (List.mem_cons_self o l2)
      rw [← ho]
      exact this
    have h1c : ∀ y ∈ l1, y.id ≠ (Order.cancel o).id := by
      intro y hy
      show y.id ≠ o.id
      rw [ho]
      exact h1 y hy
    have hupd : OrderRepository.update_order ⟨l1 ++ o :: l2, fc⟩
        (Order.cancel o) =
        ⟨l1 ++ Order.cancel o :: l2,
         (l1 ++ Order.cancel o :: l2).map Order.to_dict⟩ := by
      unfold OrderRepository.update_order
      rw [show (⟨l1 ++ o :: l2, fc⟩ : RepoState).orders = l1 ++ o :: l2
            from rfl,
          replaceFirst_append h1c (show o.id = (Order.cancel o).id from rfl)]
      rfl
    refine ⟨?_, ?_, ?_⟩
    · unfold OrderManager.cancel_order
      rw [show (⟨l1 ++ o :: l2, fc⟩ : RepoState).orders = l1 ++ o :: l2
            from rfl,
          firstMatch_append h1 ho]
      have hne : ¬ o.status = "Removed" := by
        rw [hs]
        decide
      simp only [if_neg hne]
    · rw [hupd]
      exact List.mem_append_right l1 (List.mem_cons_self _ l2)
    · rw [hupd]

/-- Witness for C4 on a two-order store (a pending id 1111, a removed id
2222): cancelling 9999 and 2222 return nothing with no change; cancelling
1111 returns the removed copy and persists it. -/
theorem claim_C4_cancel_order_cases_witness :
    OrderManager.cancel_order st2 9999 = (none, st2) ∧
    OrderManager.cancel_order st2 2222 = (none, st2) ∧
    OrderManager.cancel_order st2 1111 =
      (some (Order.cancel oP),
       OrderRepository.update_order st2 (Order.cancel oP)) :=
  ⟨(claim_C4_cancel_order_cases st2 9999 (by decide)).1 (by decide),
   (claim_C4_cancel_order_cases st2 2222 (by decide)).2.1 oR2 (by decide)
     rfl rfl,
   ((claim_C4_cancel_order_cases st2 1111 (by decide)).2.2 oP (by decide)
     rfl rfl).1⟩

lemma recToOrder_to_dict {o : Order} (hv : o.timestamp.Valid) :
    recToOrder o.to_dict = some o := by
  unfold recToOrder
  rw [show o.to_dict.timestamp = o.timestamp.isoformat from rfl,
      fromisoformat_isoformat hv]
  rfl

lemma load_orders_map_to_dict {l : List Order}
    (hts : ∀ o ∈ l, o.timestamp.Valid) :
    OrderRepository.load_orders (l.map Order.to_dict) = some l := by
  induction l with
  | nil => rfl
  | cons o os ih =>
    rw [List.map_cons]
    simp only [OrderRepository.load_orders]
    rw [recToOrder_to_dict (hts o (List.mem_cons_self o os)),
        ih (fun y hy => hts y (List.mem_cons_of_mem o hy))]

/-- Claim C5: serializing a collection of orders to the backing file via
`save_orders` and reconstructing it via `load_orders` succeeds and
reproduces the collection exactly — same length, and each order's id,
customer name, location, status and timestamp equal the original's. -/
theorem claim_C5_save_load_roundtrip (st : RepoState)
    (hts : ∀ o ∈ st.orders, o.timestamp.Valid) :
    OrderRepository.load_orders (OrderRepository.save_orders st).file =
      some st.orders := by
  rw [show (OrderRepository.save_orders st).file =
        st.orders.map Order.to_dict from rfl]
  exact load_orders_map_to_dict hts

/-- Witness for C5 on a one-order store. -/
theorem claim_C5_save_load_roundtrip_witness :
    OrderRepository.load_orders (OrderRepository.save_orders st1).file =
      some st1.orders :=
  claim_C5_save_load_roundtrip st1 (by decide)

/-- Claim C2 fails on the code: `Order.__init__` draws a random id with no
collision check, so when the store already holds an order with id 1234 and
the draw yields 1234 again, `create_order` at a jammed location returns a
pending order that does appear in `get_orders()`, yet its id collides with
the existing order's — two stored orders share id 1234, so the new order's
id is not unique among the orders in the store. -/
theorem claim_C2_duplicate_id :
    (TrafficJamWhopper.create_order "Bob" "Queen Street" 1234 dt0 wdup).1 =
      some (Order.mk_new "Bob" "Queen Street" 1234 dt0) ∧
    (Order.mk_new "Bob" "Queen Street" 1234 dt0).status = "Pending" ∧
    Order.mk_new "Bob" "Queen Street" 1234 dt0 ∈
      OrderRepository.get_orders
        (TrafficJamWhopper.create_order "Bob" "Queen Street" 1234 dt0
          wdup).2.repo ∧
    ((OrderRepository.get_orders
        (TrafficJamWhopper.create_order "Bob" "Queen Street" 1234 dt0
          wdup).2.repo).filter (fun x => x.id == 1234)).length = 2 := by
  refine ⟨rfl, rfl, by decide, rfl⟩

end TrafficWhopper
